import Mathlib

/-!
Verification of the CV generator service (src/main.py).

The data model and operations below are a shallow embedding of the
Python source: `CVGenerator.create_pdf`'s `story` list becomes
`storyBlocks`, the two batch endpoints become `generateMultipleCvs` and
`downloadMultipleCvsZip` (returning `Except` for the HTTP 400 path and,
for the zip endpoint, the list of archive entry names), and
`generate_work_experience` becomes `genWorkExperience`, parameterised by
the draws of the randomness source and by the `strftime` collaborator.
Machine floats (the GPA) are modelled as rationals; byte-level PDF and
zip container encoding is outside the embedding, which tracks the block
sequences and entry names the source constructs.
-/

namespace CVGen

/-- Personal information record, as produced by `generate_personal_info`. -/
structure PersonalInfo where
  name : String
  email : String
  phone : String
  address : String
  linkedin : String
  summary : String
  deriving DecidableEq, Repr

/-- One work-experience entry as consumed by `create_pdf`: the dates are
the already-formatted strings stored in the dict (`start_date`,
`end_date`, the latter possibly the sentinel "Present"). -/
structure ExperienceEntry where
  position : String
  company : String
  startDate : String
  endDate : String
  responsibilities : List String
  deriving DecidableEq, Repr

/-- One education entry; `gpa` is `None` or a float in the source,
modelled as `Option ℚ`. -/
structure EducationEntry where
  degree : String
  institution : String
  year : String
  gpa : Option ℚ
  deriving DecidableEq, Repr

/-- Skills dict with the `technical` and `soft` lists. -/
structure Skills where
  technical : List String
  soft : List String
  deriving DecidableEq, Repr

/-- The full CV record (`cv_data` dict in the source). -/
structure CVData where
  personal : PersonalInfo
  experience : List ExperienceEntry
  education : List EducationEntry
  skills : Skills
  certifications : List String
  deriving DecidableEq, Repr

/-- The four paragraph styles `create_pdf` references: the custom
`CVTitle`, `SectionHeader`, `ContactInfo` styles and the stock `Normal`. -/
inductive BStyle where
  | cvTitle
  | sectionHeader
  | contactInfo
  | normal
  deriving DecidableEq, Repr

/-- A flowable appended to the `story` list: a `Paragraph(text, style)`
or a `Spacer(width, height)`. -/
inductive LayoutBlock where
  | para (text : String) (style : BStyle)
  | spacer (width : Nat) (height : Nat)
  deriving DecidableEq, Repr

/-- The style of a block, `none` for spacers. -/
def blockStyle : LayoutBlock → Option BStyle
  | .para _ s => some s
  | .spacer _ _ => none

/-- The contact paragraph text of lines 186-190: a triple-quoted
f-string whose raw newlines and 8-space indentation are part of the
string; email and phone are joined with " | ", and address and linkedin
follow after `<br/>` line breaks. -/
def contactText (p : PersonalInfo) : String :=
  "\n        " ++ p.email ++ " | " ++ p.phone ++ "<br/>\n        "
    ++ p.address ++ "<br/>\n        " ++ p.linkedin ++ "\n        "

/-- The experience header f-string of line 202:
`<b>` position `</b> - ` company ` (` start ` - ` end `)`. -/
def expHeader (e : ExperienceEntry) : String :=
  "<b>" ++ e.position ++ "</b> - " ++ e.company ++ " (" ++ e.startDate
    ++ " - " ++ e.endDate ++ ")"

/-- The blocks appended for one experience entry (lines 200-208):
header paragraph, one bullet paragraph per responsibility, `Spacer(1, 8)`. -/
def expBlocks (e : ExperienceEntry) : List LayoutBlock :=
  .para (expHeader e) .normal
    :: ((e.responsibilities.map fun r => .para ("• " ++ r) .normal)
      ++ [.spacer 1 8])

/-- The education base text of line 213:
`<b>` degree `</b><br/>` institution `, ` year. -/
def eduBase (e : EducationEntry) : String :=
  "<b>" ++ e.degree ++ "</b><br/>" ++ e.institution ++ ", " ++ e.year

/-- The education text of lines 213-215.  Line 214 tests `if edu['gpa']:`,
Python truthiness, which is false both for `None` and for the float
`0.0`; the embedding keeps that distinction. -/
def eduText (e : EducationEntry) : String :=
  match e.gpa with
  | none => eduBase e
  | some g => if g ≠ 0 then eduBase e ++ " (GPA: " ++ toString g ++ ")" else eduBase e

/-- The blocks appended for one education entry (lines 212-217). -/
def eduBlocks (e : EducationEntry) : List LayoutBlock :=
  [.para (eduText e) .normal, .spacer 1 8]

/-- Certifications section (lines 226-229): emitted only when the list is
truthy, i.e. non-empty. -/
def certBlocks (certs : List String) : List LayoutBlock :=
  if certs.isEmpty then []
  else .para "CERTIFICATIONS" .sectionHeader
    :: certs.map fun c => .para ("• " ++ c) .normal

/-- The fixed blocks appended before the experience loop (lines 183-199). -/
def storyPre (cv : CVData) : List LayoutBlock :=
  [.para cv.personal.name .cvTitle,
   .para (contactText cv.personal) .contactInfo,
   .para "PROFESSIONAL SUMMARY" .sectionHeader,
   .para cv.personal.summary .normal,
   .spacer 1 12,
   .para "WORK EXPERIENCE" .sectionHeader]

/-- The blocks appended after the experience loop (lines 211-229). -/
def storyPost (cv : CVData) : List LayoutBlock :=
  .para "EDUCATION" .sectionHeader
    :: (cv.education.flatMap eduBlocks
      ++ [.para "SKILLS" .sectionHeader,
          .para ("<b>Technical:</b> " ++ String.intercalate ", " cv.skills.technical) .normal,
          .para ("<b>Soft Skills:</b> " ++ String.intercalate ", " cv.skills.soft) .normal,
          .spacer 1 8]
      ++ certBlocks cv.certifications)

/-- The full `story` list that `create_pdf` builds (lines 180-229), in
the exact order the source appends blocks. -/
def storyBlocks (cv : CVData) : List LayoutBlock :=
  storyPre cv ++ cv.experience.flatMap expBlocks ++ storyPost cv

/-- Whether a block is the title block: a paragraph styled `CVTitle`. -/
def isTitle (b : LayoutBlock) : Bool :=
  match b with
  | .para _ .cvTitle => true
  | _ => false

/-! ## Filenames -/

/-- The sanitisation applied to the display name before it enters a
filename (lines 295 and 328): `name.replace(' ', '_').replace(',', '')`.
Both patterns are single characters, so the sequential `str.replace`
calls are exactly a character map (space to underscore) followed by a
character filter (drop commas): the map never produces a comma and the
filter never sees a space the map missed. -/
def sanitizeName (s : String) : String :=
  String.mk (((s.data).map fun c => if c = ' ' then '_' else c).filter fun c => c ≠ ',')

/-- Zero-padded decimal of width at least 3, Python's `f"{n:03d}"` for a
non-negative `n`: three digits for `n < 1000`, full decimal beyond. -/
def pad3 (n : Nat) : String :=
  if n < 1000 then
    String.mk [Nat.digitChar (n / 100), Nat.digitChar (n / 10 % 10), Nat.digitChar (n % 10)]
  else
    toString n

/-- Filename of the single-PDF endpoint (lines 295-297):
`CV_` name `_` timestamp `.pdf`. -/
def singleFilename (name ts : String) : String :=
  "CV_" ++ sanitizeName name ++ "_" ++ ts ++ ".pdf"

/-- Archive entry name in the batch zip (lines 328-330), `idx` being
`i+1` for the `i`-th record: `CV_` name `_` timestamp `_` index `.pdf`. -/
def zipEntryName (name ts : String) (idx : Nat) : String :=
  "CV_" ++ sanitizeName name ++ "_" ++ ts ++ "_" ++ pad3 idx ++ ".pdf"

/-! ## Batch endpoints

Both endpoints take the HTTP path parameter `count : ℤ` (a Python `int`)
and are parameterised by the stream of synthesized records (`recs`), or
of display names and per-iteration timestamps (`names`, `tss`), indexed
by loop iteration.  `range(count)` is empty for `count ≤ 0`, which
`Int.toNat` captures. -/

/-- An `HTTPException(status_code, detail)`. -/
structure HTTPError where
  status : Nat
  detail : String
  deriving DecidableEq, Repr

/-- The `/generate-multiple-cvs` endpoint (lines 262-279): rejects
`count > 20` with status 400 and the (mismatched) "Maximum 10" message,
otherwise returns the list of generated records and its length. -/
def generateMultipleCvs (count : Int) (recs : Nat → CVData) :
    Except HTTPError (List CVData × Nat) :=
  if count > 20 then
    .error ⟨400, "Maximum 10 CVs can be generated at once"⟩
  else
    let cvs := (List.range count.toNat).map recs
    .ok (cvs, cvs.length)

/-- The `/download-multiple-cvs-zip` endpoint (lines 305-343), modelled
down to the archive entry names it writes: rejects `count > 20` with
status 400, otherwise writes one entry per iteration `i` named with the
record's display name, that iteration's timestamp, and index `i+1`
formatted `03d`. -/
def downloadMultipleCvsZip (count : Int) (names tss : Nat → String) :
    Except HTTPError (List String) :=
  if count > 20 then
    .error ⟨400, "Maximum 20 CVs can be generated at once"⟩
  else
    .ok ((List.range count.toNat).map fun i => zipEntryName (names i) (tss i) (i + 1))

/-! ## Work experience generation -/

/-- The result of one iteration of `generate_work_experience`'s loop:
both the underlying day numbers of the computed dates and the formatted
string fields that end up in the record. -/
structure GenExp where
  position : String
  company : String
  startDay : Int
  endDay : Int
  startStr : String
  endStr : String
  responsibilities : List String
  deriving DecidableEq, Repr

/-- `generate_work_experience` (lines 90-108), parameterised by the
draws of the randomness source and the clock: `now` is today's day
number, `fmt` is the `strftime('%m/%Y')` collaborator on day numbers,
and for iteration `i` the source draws `gap i ∈ [30, 365]` (the
`randint(30, 365)` multiplied by `i` to push the end date back),
`dur i ∈ [365, 1095]` (the `randint(365, 1095)` duration), a position, a
company, and 2-4 responsibility sentences.  Iteration `i` sets
`end = now - gap i * i`, `start = end - dur i`, and stores
`end.strftime` for `i > 0` but the sentinel "Present" for `i = 0`. -/
def genWorkExperience (now : Int) (fmt : Int → String) (n : Nat)
    (gap dur : Nat → Nat) (pos comp : Nat → String)
    (resps : Nat → List String) : List GenExp :=
  (List.range n).map fun i =>
    let e : Int := now - gap i * i
    let s : Int := e - dur i
    { position := pos i
      company := comp i
      startDay := s
      endDay := e
      startStr := fmt s
      endStr := if i > 0 then fmt e else "Present"
      responsibilities := resps i }

/-- A list of experiences is ordered most-recent-first when each entry's
end date is no earlier than the next entry's end date. -/
def mostRecentFirst (l : List GenExp) : Prop :=
  l.Chain' fun a b => b.endDay ≤ a.endDay

instance (l : List GenExp) : Decidable (mostRecentFirst l) :=
  inferInstanceAs (Decidable (l.Chain' fun a b : GenExp => b.endDay ≤ a.endDay))

/-! ## Spec-worded comparison definitions

For the refinement claims, a second definition follows the spec's words
and is compared with the definition taken from the source. -/

/-- Follows the spec's words: the experience header in the form
position, em dash, company, then the date range in parentheses with an
en dash between the dates.  Compare with `expHeader` from the source. -/
def specExpHeader (e : ExperienceEntry) : String :=
  e.position ++ " — " ++ e.company ++ " (" ++ e.startDate ++ " – " ++ e.endDate ++ ")"

/-- Follows the spec's words: email, phone, address, linkedin combined
on one line, joined with a vertical separator.  Compare with
`contactText` from the source. -/
def specContactLine (p : PersonalInfo) : String :=
  p.email ++ " | " ++ p.phone ++ " | " ++ p.address ++ " | " ++ p.linkedin

/-- Python `str.isspace` characters that fit in ASCII: the whitespace a
display name could plausibly carry. -/
def isWhitespaceChar (c : Char) : Bool :=
  c = ' ' || c = '\t' || c = '\n' || c = '\x0b' || c = '\x0c' || c = '\r'

/-- Characters illegal in filenames on mainstream filesystems. -/
def isIllegalChar (c : Char) : Bool :=
  c = '/' || c = '\\' || c = ':' || c = '*' || c = '?' || c = '\"' || c = '<'
    || c = '>' || c = '|'

/-- Follows the spec's words: sanitisation replaces whitespace with
underscores and strips characters illegal in filenames.  Compare with
`sanitizeName` from the source. -/
def specSanitize (s : String) : String :=
  String.mk (((s.data).map fun c => if isWhitespaceChar c then '_' else c).filter
    fun c => ¬ isIllegalChar c)

/-! ## Helpers for counting header blocks -/

/-- Whether a character list carries the `<b>` bold-markup prefix that
every experience header text begins with and no bullet text does. -/
def isBold (l : List Char) : Bool :=
  match l with
  | a :: b :: c :: _ => a == '<' && b == 'b' && c == '>'
  | _ => false

/-- Extracts the text of a position/company header block: a
`Normal`-styled paragraph opening with bold markup; bullets open with a
bullet glyph and spacers carry no text, so inside the experience section
exactly the headers are extracted. -/
def headerText (b : LayoutBlock) : Option String :=
  match b with
  | .para t .normal => if isBold t.data then some t else none
  | _ => none

/-! ## Concrete fixtures used by witnesses and counterexamples -/

/-- A concrete education entry with a GPA present, in the generated
range. -/
def edu0 : EducationEntry :=
  { degree := "Bachelor of Science in Computer Science"
    institution := "State University"
    year := "2019"
    gpa := some (7 / 2) }

/-- A concrete experience entry, fields drawn from the source's lists. -/
def ex0 : ExperienceEntry :=
  { position := "Software Engineer"
    company := "TechCorp Inc."
    startDate := "01/2020"
    endDate := "Present"
    responsibilities := ["Built systems.", "Led reviews."] }

/-- A concrete CV record with empty certifications. -/
def cv0 : CVData :=
  { personal :=
      { name := "John Doe"
        email := "john@example.com"
        phone := "555-0100"
        address := "1 Main St, Springfield, IL 62701"
        linkedin := "linkedin.com/in/johndoe"
        summary := "Seasoned engineer." }
    experience := [ex0]
    education := [edu0]
    skills := { technical := ["Python", "SQL"], soft := ["Leadership"] }
    certifications := [] }

/-- Concrete gap draws for the ordering counterexample: iteration 1
draws 365, iteration 2 draws 30, both within `randint(30, 365)`. -/
def gapsCx : Nat → Nat := fun i => [30, 365, 30].getD i 30

/-- Concrete duration draws, all 365, within `randint(365, 1095)`. -/
def dursCx : Nat → Nat := fun _ => 365

/-- A concrete stand-in for the `strftime('%m/%Y')` collaborator. -/
def fmtCx : Int → String := fun _ => "06/2024"

/-- The ordering claim about `generate_work_experience` exactly as
stated: for every output of the generator (any clock, any `strftime`
collaborator, and any draws within the ranges the source requests), the
list is ordered most-recent-first, no entry starts after it ends when
its end is not the "Present" sentinel, and exactly the first entry
carries the sentinel. -/
def c6Claim : Prop :=
  ∀ (now : Int) (fmt : Int → String) (n : Nat) (gap dur : Nat → Nat)
    (pos comp : Nat → String) (resps : Nat → List String),
    2 ≤ n → n ≤ 5 →
    (∀ i, 30 ≤ gap i ∧ gap i ≤ 365) →
    (∀ i, 365 ≤ dur i ∧ dur i ≤ 1095) →
    (∀ i, 2 ≤ (resps i).length ∧ (resps i).length ≤ 4) →
    (∀ d, fmt d ≠ "Present") →
    mostRecentFirst (genWorkExperience now fmt n gap dur pos comp resps)
      ∧ (∀ e ∈ genWorkExperience now fmt n gap dur pos comp resps,
          e.endStr ≠ "Present" → e.startDay ≤ e.endDay)
      ∧ (∀ i (hi : i < (genWorkExperience now fmt n gap dur pos comp resps).length),
          ((genWorkExperience now fmt n gap dur pos comp resps).get ⟨i, hi⟩).endStr
              = "Present" ↔ i = 0)

/-! ## Helper lemmas -/

lemma mem_expBlocks_shape {e : ExperienceEntry} {b : LayoutBlock}
    (h : b ∈ expBlocks e) : (∃ t, b = .para t .normal) ∨ b = .spacer 1 8 := by
  simp [expBlocks] at h
  rcases h with h | ⟨r, _, h⟩ | h
  · exact .inl ⟨_, h⟩
  · exact .inl ⟨_, h.symm⟩
  · exact .inr h

lemma mem_eduBlocks_shape {e : EducationEntry} {b : LayoutBlock}
    (h : b ∈ eduBlocks e) : (∃ t, b = .para t .normal) ∨ b = .spacer 1 8 := by
  simp [eduBlocks] at h
  rcases h with h | h
  · exact .inl ⟨_, h⟩
  · exact .inr h

lemma isTitle_of_shape {b : LayoutBlock}
    (h : (∃ t, b = .para t .normal) ∨ b = .spacer 1 8) : isTitle b = false := by
  rcases h with ⟨t, h⟩ | h <;> subst h <;> rfl

lemma mem_certBlocks_shape {certs : List String} {b : LayoutBlock}
    (h : b ∈ certBlocks certs) : b = .para "CERTIFICATIONS" .sectionHeader
      ∨ ∃ t, b = .para t .normal := by
  unfold certBlocks at h
  split at h
  · simp at h
  · simp at h
    rcases h with h | ⟨c, _, h⟩
    · exact .inl h
    · exact .inr ⟨_, h.symm⟩

lemma not_mem_storyPost_of_no_certs (cv : CVData) (hc : cv.certifications = []) :
    LayoutBlock.para "CERTIFICATIONS" .sectionHeader ∉ storyPost cv := by
  intro hm
  rw [storyPost, hc] at hm
  rcases List.mem_cons.mp hm with h | hm
  · simp at h
  · rcases List.mem_append.mp hm with hm | hm
    · rcases List.mem_append.mp hm with hm | hm
      · obtain ⟨e, _, hb⟩ := List.mem_flatMap.mp hm
        rcases mem_eduBlocks_shape hb with ⟨t, h⟩ | h <;> simp at h
      · simp at hm
    · simp [certBlocks] at hm

lemma countP_isTitle_storyPost (cv : CVData) :
    (storyPost cv).countP (fun b => isTitle b) = 0 := by
  refine List.countP_eq_zero.mpr ?_
  intro b hb
  rw [storyPost] at hb
  rcases List.mem_cons.mp hb with h | hb
  · subst h; simp [isTitle]
  · rcases List.mem_append.mp hb with hb | hb
    · rcases List.mem_append.mp hb with hb | hb
      · obtain ⟨e, _, hb⟩ := List.mem_flatMap.mp hb
        simp [isTitle_of_shape (mem_eduBlocks_shape hb)]
      · simp only [List.mem_cons, List.mem_singleton, List.not_mem_nil, or_false] at hb
        rcases hb with h | h | h | h <;> subst h <;> simp [isTitle]
    · rcases mem_certBlocks_shape hb with h | ⟨t, h⟩ <;> subst h <;> simp [isTitle]

lemma isBold_bullet_chars (l : List Char) : isBold ('•' :: ' ' :: l) = false := by
  cases l <;> simp [isBold]

lemma isBold_expHeader (e : ExperienceEntry) : isBold (expHeader e).data = true := by
  simp only [expHeader, String.data_append]
  show isBold ('<' :: 'b' :: '>' :: _) = true
  simp [isBold]

lemma filterMap_headerText_expBlocks (e : ExperienceEntry) :
    (expBlocks e).filterMap headerText = [expHeader e] := by
  rw [expBlocks, List.filterMap_cons, List.filterMap_append]
  have h1 : headerText (.para (expHeader e) .normal) = some (expHeader e) := by
    simp [headerText, isBold_expHeader e]
  have h2 : (e.responsibilities.map fun r =>
      LayoutBlock.para ("• " ++ r) .normal).filterMap headerText = [] := by
    rw [List.filterMap_map]
    refine List.filterMap_eq_nil_iff.mpr ?_
    intro r _
    simp [Function.comp, headerText, String.data_append, isBold_bullet_chars]
  rw [h1, h2]
  rfl

lemma filterMap_headerText_flatMap (l : List ExperienceEntry) :
    (l.flatMap expBlocks).filterMap headerText = l.map expHeader := by
  induction l with
  | nil => rfl
  | cons e rest ih =>
    rw [List.flatMap_cons, List.filterMap_append, filterMap_headerText_expBlocks, ih]
    rfl

/-! ## Claim C1 -/

/-- Claim C1: for every CV record, the block sequence built by
`create_pdf` begins with the Title paragraph styled `CVTitle`, that
block is the only `CVTitle`-styled block, and when certifications is
empty the sequence contains no "CERTIFICATIONS" section header. -/
theorem composer_title_unique_and_cert_omitted (cv : CVData) :
    (storyBlocks cv).head? = some (.para cv.personal.name .cvTitle)
    ∧ (storyBlocks cv).countP (fun b => isTitle b) = 1
    ∧ (cv.certifications = [] →
        LayoutBlock.para "CERTIFICATIONS" .sectionHeader ∉ storyBlocks cv) := by
  refine ⟨rfl, ?_, ?_⟩
  · have h1 : (cv.experience.flatMap expBlocks).countP (fun b => isTitle b) = 0 :=
      List.countP_eq_zero.mpr (by
        intro b hb
        obtain ⟨e, _, hb⟩ := List.mem_flatMap.mp hb
        simp [isTitle_of_shape (mem_expBlocks_shape hb)])
    have h0 : (storyPre cv).countP (fun b => isTitle b) = 1 := rfl
    rw [storyBlocks, List.countP_append, List.countP_append, h0, h1,
      countP_isTitle_storyPost]
  · intro hc
    rw [storyBlocks]
    intro hmem
    rcases List.mem_append.mp hmem with hm | hm
    · rcases List.mem_append.mp hm with hm | hm
      · simp [storyPre] at hm
      · obtain ⟨e, _, hb⟩ := List.mem_flatMap.mp hm
        rcases mem_expBlocks_shape hb with ⟨t, h⟩ | h <;> simp at h
    · exact not_mem_storyPost_of_no_certs cv hc hm

/-- Witness for C1 at the concrete record `cv0`, whose certifications
list is empty. -/
theorem composer_title_unique_and_cert_omitted_witness :
    cv0.certifications = []
    ∧ ((storyBlocks cv0).head? = some (.para "John Doe" .cvTitle)
      ∧ (storyBlocks cv0).countP (fun b => isTitle b) = 1
      ∧ LayoutBlock.para "CERTIFICATIONS" .sectionHeader ∉ storyBlocks cv0) :=
  ⟨rfl, (composer_title_unique_and_cert_omitted cv0).1,
    (composer_title_unique_and_cert_omitted cv0).2.1,
    (composer_title_unique_and_cert_omitted cv0).2.2 rfl⟩

/-! ## Claim C5 -/

/-- Claim C5: for an experience list of length k, the composed block
sequence contains the experience section as a contiguous run, that run
carries exactly k position/company header blocks in the input order (the
`filterMap` extracting the bold-opening `Normal` paragraphs returns
exactly the k headers, in order), and each entry contributes its header
followed by one bullet block per responsibility and then a spacer. -/
theorem experience_headers_in_order (cv : CVData) :
    storyBlocks cv = storyPre cv ++ cv.experience.flatMap expBlocks ++ storyPost cv
    ∧ (cv.experience.flatMap expBlocks).filterMap headerText
        = cv.experience.map expHeader
    ∧ ((cv.experience.flatMap expBlocks).filterMap headerText).length
        = cv.experience.length
    ∧ ∀ e ∈ cv.experience, expBlocks e
        = .para (expHeader e) .normal
          :: ((e.responsibilities.map fun r => .para ("• " ++ r) .normal)
            ++ [.spacer 1 8]) := by
  refine ⟨rfl, filterMap_headerText_flatMap cv.experience, ?_, fun _ _ => rfl⟩
  rw [filterMap_headerText_flatMap cv.experience, List.length_map]

/-- Witness for C5 at the concrete record `cv0` and its entry `ex0`. -/
theorem experience_headers_in_order_witness :
    ex0 ∈ cv0.experience
    ∧ (storyBlocks cv0
        = storyPre cv0 ++ cv0.experience.flatMap expBlocks ++ storyPost cv0
      ∧ (cv0.experience.flatMap expBlocks).filterMap headerText
          = cv0.experience.map expHeader
      ∧ ((cv0.experience.flatMap expBlocks).filterMap headerText).length
          = cv0.experience.length
      ∧ expBlocks ex0
          = .para (expHeader ex0) .normal
            :: ((ex0.responsibilities.map fun r => .para ("• " ++ r) .normal)
              ++ [.spacer 1 8])) :=
  ⟨List.mem_cons_self ex0 [], (experience_headers_in_order cv0).1,
    (experience_headers_in_order cv0).2.1,
    (experience_headers_in_order cv0).2.2.1,
    (experience_headers_in_order cv0).2.2.2 ex0 (List.mem_cons_self ex0 [])⟩

/-! ## Filename lemmas -/

lemma pad3_data (n : Nat) (h : n < 1000) :
    (pad3 n).data
      = [Nat.digitChar (n / 100), Nat.digitChar (n / 10 % 10), Nat.digitChar (n % 10)] := by
  rw [pad3, if_pos h]

lemma digitChar_inj : ∀ a < 10, ∀ b < 10, Nat.digitChar a = Nat.digitChar b → a = b := by
  decide

lemma pad3_inj {m n : Nat} (hm : m < 1000) (hn : n < 1000) (h : pad3 m = pad3 n) :
    m = n := by
  have hd := congrArg String.data h
  rw [pad3_data m hm, pad3_data n hn] at hd
  simp only [List.cons.injEq, and_true] at hd
  obtain ⟨h1, h2, h3⟩ := hd
  have e1 := digitChar_inj (m / 100) (by omega) (n / 100) (by omega) h1
  have e2 := digitChar_inj (m / 10 % 10) (by omega) (n / 10 % 10) (by omega) h2
  have e3 := digitChar_inj (m % 10) (by omega) (n % 10) (by omega) h3
  omega

lemma zipEntryName_data (n t : String) (i : Nat) :
    (zipEntryName n t i).data
      = ("CV_" ++ sanitizeName n ++ "_" ++ t ++ "_").data
        ++ ((pad3 i).data ++ ".pdf".data) := by
  simp [zipEntryName, String.data_append, List.append_assoc]

lemma zipEntryName_inj_idx {n1 t1 n2 t2 : String} {i j : Nat}
    (hi : i < 1000) (hj : j < 1000)
    (h : zipEntryName n1 t1 i = zipEntryName n2 t2 j) : i = j := by
  have hd := congrArg String.data h
  rw [zipEntryName_data n1 t1 i, zipEntryName_data n2 t2 j] at hd
  have hlen : ((pad3 i).data ++ ".pdf".data).length
      = ((pad3 j).data ++ ".pdf".data).length := by
    rw [List.length_append, List.length_append, pad3_data i hi, pad3_data j hj]
    simp
  have h2 := (List.append_inj' hd hlen).2
  have hpl : ((pad3 i).data).length = ((pad3 j).data).length := by
    rw [pad3_data i hi, pad3_data j hj]
    simp
  have h3 := (List.append_inj h2 hpl).1
  exact pad3_inj hi hj (String.ext h3)

/-! ## Claim C2 -/

/-- Claim C2: for a batch count between 1 and 20, the zip endpoint
succeeds and writes exactly `count` entries; entry `i` (counting from 0)
is named `CV_` name `_` timestamp `_` `i+1` zero-padded to three digits
`.pdf` in insertion order, and the entry names are pairwise distinct for
any names and timestamps, including identical ones, because the index
component differs. -/
theorem batch_zip_entry_names_distinct (count : Nat) (names tss : Nat → String)
    (h1 : 1 ≤ count) (h2 : count ≤ 20) :
    ∃ l, downloadMultipleCvsZip (count : Int) names tss = .ok l
      ∧ l.length = count
      ∧ (∀ i, i < count →
          l[i]? = some ("CV_" ++ sanitizeName (names i) ++ "_" ++ tss i
            ++ "_" ++ pad3 (i + 1) ++ ".pdf"))
      ∧ l.Nodup := by
  refine ⟨(List.range count).map fun i => zipEntryName (names i) (tss i) (i + 1),
    ?_, ?_, ?_, ?_⟩
  · rw [downloadMultipleCvsZip, if_neg (by omega)]
    rw [Int.toNat_natCast]
  · simp
  · intro i hi
    simp [List.getElem?_map, List.getElem?_range, hi, zipEntryName]
  · refine List.Nodup.map_on ?_ (List.nodup_range count)
    intro i hi j hj hij
    have hi2 : i < count := List.mem_range.mp hi
    have hj2 : j < count := List.mem_range.mp hj
    have := zipEntryName_inj_idx (i := i + 1) (j := j + 1) (by omega) (by omega) hij
    omega

/-- Witness for C2 at count 3 with all records sharing the same display
name and timestamp. -/
theorem batch_zip_entry_names_distinct_witness :
    (1 ≤ 3 ∧ 3 ≤ 20)
    ∧ ∃ l, downloadMultipleCvsZip (3 : Int) (fun _ => "John Doe")
          (fun _ => "20240601_120000") = .ok l
        ∧ l.length = 3
        ∧ (∀ i, i < 3 →
            l[i]? = some ("CV_" ++ sanitizeName "John Doe" ++ "_" ++ "20240601_120000"
              ++ "_" ++ pad3 (i + 1) ++ ".pdf"))
        ∧ l.Nodup :=
  ⟨⟨by omega, by omega⟩,
    batch_zip_entry_names_distinct 3 (fun _ => "John Doe")
      (fun _ => "20240601_120000") (by omega) (by omega)⟩

/-! ## Claim C3 -/

/-- Claim C3: every count above 20 is rejected by both batch endpoints
with a status-400 bounded-input error before any record is synthesized
(the error carries no partial output), the enforced bound being 20 in
both, while the error text of `generate_multiple_cvs` claims a maximum
of 10; counts up to 20 are not rejected. -/
theorem batch_count_bound_rejection (count : Int) (recs : Nat → CVData)
    (names tss : Nat → String) (h : 20 < count) :
    generateMultipleCvs count recs
        = .error ⟨400, "Maximum 10 CVs can be generated at once"⟩
    ∧ downloadMultipleCvsZip count names tss
        = .error ⟨400, "Maximum 20 CVs can be generated at once"⟩
    ∧ (∀ c : Int, c ≤ 20 → (∃ v, generateMultipleCvs c recs = .ok v)
        ∧ ∃ v, downloadMultipleCvsZip c names tss = .ok v) := by
  refine ⟨?_, ?_, ?_⟩
  · rw [generateMultipleCvs, if_pos h]
  · rw [downloadMultipleCvsZip, if_pos h]
  · intro c hc
    constructor
    · exact ⟨_, by rw [generateMultipleCvs, if_neg (by omega)]⟩
    · exact ⟨_, by rw [downloadMultipleCvsZip, if_neg (by omega)]⟩

/-- Witness for C3 at count 21. -/
theorem batch_count_bound_rejection_witness :
    (20 : Int) < 21
    ∧ (generateMultipleCvs 21 (fun _ => cv0)
          = .error ⟨400, "Maximum 10 CVs can be generated at once"⟩
      ∧ downloadMultipleCvsZip 21 (fun _ => "John Doe") (fun _ => "20240601_120000")
          = .error ⟨400, "Maximum 20 CVs can be generated at once"⟩
      ∧ (∀ c : Int, c ≤ 20 →
          (∃ v, generateMultipleCvs c (fun _ => cv0) = .ok v)
          ∧ ∃ v, downloadMultipleCvsZip c (fun _ => "John Doe")
              (fun _ => "20240601_120000") = .ok v)) :=
  ⟨by omega, batch_count_bound_rejection 21 (fun _ => cv0)
    (fun _ => "John Doe") (fun _ => "20240601_120000") (by omega)⟩

/-! ## Claim C10 -/

/-- Claim C10: a non-positive count is not rejected; the loops run zero
iterations, so `generate_multiple_cvs` returns an empty list with count
field 0 and the zip endpoint returns an archive with zero entries; in
general the endpoints reject exactly the counts above 20. -/
theorem nonpositive_count_not_rejected (count : Int) (recs : Nat → CVData)
    (names tss : Nat → String) (h : count ≤ 0) :
    generateMultipleCvs count recs = .ok ([], 0)
    ∧ downloadMultipleCvsZip count names tss = .ok []
    ∧ (∀ c : Int, (∃ e, generateMultipleCvs c recs = .error e) ↔ 20 < c)
    ∧ (∀ c : Int, (∃ e, downloadMultipleCvsZip c names tss = .error e) ↔ 20 < c) := by
  refine ⟨?_, ?_, ?_, ?_⟩
  · rw [generateMultipleCvs, if_neg (by omega), Int.toNat_of_nonpos h]
    rfl
  · rw [downloadMultipleCvsZip, if_neg (by omega), Int.toNat_of_nonpos h]
    rfl
  · intro c
    constructor
    · rintro ⟨e, he⟩
      by_contra hc
      rw [generateMultipleCvs, if_neg hc] at he
      exact absurd he (by simp)
    · intro hc
      exact ⟨_, by rw [generateMultipleCvs, if_pos hc]⟩
  · intro c
    constructor
    · rintro ⟨e, he⟩
      by_contra hc
      rw [downloadMultipleCvsZip, if_neg hc] at he
      exact absurd he (by simp)
    · intro hc
      exact ⟨_, by rw [downloadMultipleCvsZip, if_pos hc]⟩

/-- Witness for C10 at count -5. -/
theorem nonpositive_count_not_rejected_witness :
    (-5 : Int) ≤ 0
    ∧ (generateMultipleCvs (-5) (fun _ => cv0) = .ok ([], 0)
      ∧ downloadMultipleCvsZip (-5) (fun _ => "John Doe")
          (fun _ => "20240601_120000") = .ok []
      ∧ (∀ c : Int, (∃ e, generateMultipleCvs c (fun _ => cv0) = .error e) ↔ 20 < c)
      ∧ (∀ c : Int, (∃ e, downloadMultipleCvsZip c (fun _ => "John Doe")
          (fun _ => "20240601_120000") = .error e) ↔ 20 < c)) :=
  ⟨by omega, nonpositive_count_not_rejected (-5) (fun _ => cv0)
    (fun _ => "John Doe") (fun _ => "20240601_120000") (by omega)⟩

/-! ## Claim C4 -/

/-- Claim C4: for every education entry whose GPA, when present, lies in
the generated range 3.0 to 4.0, the composed education text carries the
parenthetical GPA suffix exactly when the GPA is present; with GPA
absent the text is the bare base text. -/
theorem education_gpa_parenthetical_iff_present (e : EducationEntry)
    (hb : ∀ g ∈ e.gpa, (3 : ℚ) ≤ g ∧ g ≤ 4) :
    ((∃ g, e.gpa = some g
        ∧ eduText e = eduBase e ++ " (GPA: " ++ toString g ++ ")")
      ↔ e.gpa.isSome)
    ∧ (e.gpa = none → eduText e = eduBase e) := by
  constructor
  · constructor
    · rintro ⟨g, hg, _⟩
      rw [hg]
      rfl
    · intro hs
      rw [Option.isSome_iff_exists] at hs
      obtain ⟨g, hg⟩ := hs
      have h3 := (hb g (by simp [hg])).1
      have hne : g ≠ 0 := by
        intro h0
        rw [h0] at h3
        norm_num at h3
      exact ⟨g, hg, by simp [eduText, hg, hne]⟩
  · intro hg
    simp [eduText, hg]

/-- Witness for C4 at the concrete entry `edu0`, whose GPA is 3.5. -/
theorem education_gpa_parenthetical_iff_present_witness :
    (∀ g ∈ edu0.gpa, (3 : ℚ) ≤ g ∧ g ≤ 4)
    ∧ (((∃ g, edu0.gpa = some g
          ∧ eduText edu0 = eduBase edu0 ++ " (GPA: " ++ toString g ++ ")")
        ↔ edu0.gpa.isSome)
      ∧ (edu0.gpa = none → eduText edu0 = eduBase edu0)) := by
  have hw : ∀ g ∈ edu0.gpa, (3 : ℚ) ≤ g ∧ g ≤ 4 := by
    intro g hg
    have h : (7 : ℚ) / 2 = g := by simpa [edu0] using hg
    rw [← h]
    norm_num
  exact ⟨hw, education_gpa_parenthetical_iff_present edu0 hw⟩

/-! ## Claim C6 (corrected) -/

/-- Counterexample to claim C6 as stated: with the clock at day 0 and
the in-range draws `gapsCx` (30 for iteration 0, 365 for iteration 1, 30
for iteration 2) and `dursCx`, the generated list has end days 0, -365,
-60, so the third entry is more recent than the second and the list is
not ordered most-recent-first.  The per-iteration gap draw is
independent, so `gap i * i` is not monotone in `i`. -/
theorem experience_order_claim_refuted : ¬ c6Claim := by
  intro h
  have h1 := h 0 fmtCx 3 gapsCx dursCx (fun _ => "Software Engineer")
    (fun _ => "TechCorp Inc.") (fun _ => ["Built systems.", "Led reviews."])
    (by omega) (by omega)
    (by intro i
        rcases i with _ | _ | _ | i <;> simp [gapsCx])
    (by intro i
        simp [dursCx])
    (by intro i
        simp)
    (by intro d
        simp [fmtCx])
  have hL : genWorkExperience 0 fmtCx 3 gapsCx dursCx (fun _ => "Software Engineer")
      (fun _ => "TechCorp Inc.") (fun _ => ["Built systems.", "Led reviews."])
      = [⟨"Software Engineer", "TechCorp Inc.", -365, 0, "06/2024", "Present",
          ["Built systems.", "Led reviews."]⟩,
         ⟨"Software Engineer", "TechCorp Inc.", -730, -365, "06/2024", "06/2024",
          ["Built systems.", "Led reviews."]⟩,
         ⟨"Software Engineer", "TechCorp Inc.", -425, -60, "06/2024", "06/2024",
          ["Built systems.", "Led reviews."]⟩] := by
    decide
  have h2 := h1.1
  rw [hL] at h2
  have h3 : List.Chain' (fun a b : GenExp => b.endDay ≤ a.endDay)
      [⟨"Software Engineer", "TechCorp Inc.", -365, 0, "06/2024", "Present",
          ["Built systems.", "Led reviews."]⟩,
         ⟨"Software Engineer", "TechCorp Inc.", -730, -365, "06/2024", "06/2024",
          ["Built systems.", "Led reviews."]⟩,
         ⟨"Software Engineer", "TechCorp Inc.", -425, -60, "06/2024", "06/2024",
          ["Built systems.", "Led reviews."]⟩] := h2
  rw [List.chain'_cons, List.chain'_cons] at h3
  have h4 := h3.2.1
  norm_num at h4

/-- Claim C6 amended: the generated list has one entry per iteration;
every entry starts strictly before it ends and ends no later than today;
exactly the first entry carries the "Present" sentinel (its underlying
end date is today, so the first entry is the most recent); but
most-recent-first ordering of the whole list is not guaranteed, because
each iteration draws its gap independently. -/
theorem experience_order_amended (now : Int) (fmt : Int → String) (n : Nat)
    (gap dur : Nat → Nat) (pos comp : Nat → String) (resps : Nat → List String)
    (hdur : ∀ i, 365 ≤ dur i ∧ dur i ≤ 1095)
    (hgap : ∀ i, 30 ≤ gap i ∧ gap i ≤ 365)
    (hfmt : ∀ d, fmt d ≠ "Present") :
    (genWorkExperience now fmt n gap dur pos comp resps).length = n
    ∧ (∀ e ∈ genWorkExperience now fmt n gap dur pos comp resps,
        e.startDay < e.endDay ∧ e.endDay ≤ now)
    ∧ (∀ i, i < n →
        ∃ e, (genWorkExperience now fmt n gap dur pos comp resps)[i]? = some e
          ∧ (e.endStr = "Present" ↔ i = 0)
          ∧ (0 < i → e.endDay < now)
          ∧ (i = 0 → e.endDay = now)) := by
  refine ⟨by simp [genWorkExperience], ?_, ?_⟩
  · intro e he
    rw [genWorkExperience] at he
    obtain ⟨i, _, rfl⟩ := List.mem_map.mp he
    constructor
    · refine Int.sub_lt_self _ ?_
      have := (hdur i).1
      exact_mod_cast (by omega : 0 < dur i)
    · refine Int.sub_le_self _ ?_
      exact mul_nonneg (Int.natCast_nonneg _) (Int.natCast_nonneg _)
  · intro i hi
    refine ⟨{ position := pos i
              company := comp i
              startDay := now - gap i * i - dur i
              endDay := now - gap i * i
              startStr := fmt (now - gap i * i - dur i)
              endStr := if i > 0 then fmt (now - gap i * i) else "Present"
              responsibilities := resps i }, ?_, ?_, ?_, ?_⟩
    · simp [genWorkExperience, List.getElem?_map, List.getElem?_range, hi]
    · cases i with
      | zero => simp
      | succ k => simp [hfmt]
    · intro hpos
      have h30 := (hgap i).1
      have hprod : 0 < gap i * i := Nat.mul_pos (by omega) hpos
      have hcast : (0 : Int) < (gap i : Int) * (i : Int) := by exact_mod_cast hprod
      show now - (gap i : Int) * (i : Int) < now
      exact Int.sub_lt_self now hcast
    · intro h0
      subst h0
      simp

/-- Witness for the amended C6 at concrete in-range draws. -/
theorem experience_order_amended_witness :
    (∀ i, 365 ≤ dursCx i ∧ dursCx i ≤ 1095)
    ∧ (∀ i, 30 ≤ gapsCx i ∧ gapsCx i ≤ 365)
    ∧ (∀ d, fmtCx d ≠ "Present")
    ∧ ((genWorkExperience 0 fmtCx 2 gapsCx dursCx (fun _ => "Software Engineer")
          (fun _ => "TechCorp Inc.") (fun _ => ["Built systems.", "Led reviews."])).length = 2
      ∧ (∀ e ∈ genWorkExperience 0 fmtCx 2 gapsCx dursCx (fun _ => "Software Engineer")
            (fun _ => "TechCorp Inc.") (fun _ => ["Built systems.", "Led reviews."]),
          e.startDay < e.endDay ∧ e.endDay ≤ 0)
      ∧ (∀ i, i < 2 →
          ∃ e, (genWorkExperience 0 fmtCx 2 gapsCx dursCx (fun _ => "Software Engineer")
              (fun _ => "TechCorp Inc.")
              (fun _ => ["Built systems.", "Led reviews."]))[i]? = some e
            ∧ (e.endStr = "Present" ↔ i = 0)
            ∧ (0 < i → e.endDay < 0)
            ∧ (i = 0 → e.endDay = 0))) := by
  have hd : ∀ i, 365 ≤ dursCx i ∧ dursCx i ≤ 1095 := by
    intro i
    simp [dursCx]
  have hg : ∀ i, 30 ≤ gapsCx i ∧ gapsCx i ≤ 365 := by
    intro i
    rcases i with _ | _ | _ | i <;> simp [gapsCx]
  have hf : ∀ d, fmtCx d ≠ "Present" := by
    intro d
    simp [fmtCx]
  exact ⟨hd, hg, hf,
    experience_order_amended 0 fmtCx 2 gapsCx dursCx (fun _ => "Software Engineer")
      (fun _ => "TechCorp Inc.") (fun _ => ["Built systems.", "Led reviews."]) hd hg hf⟩

/-! ## Claim C7 (corrected) -/

/-- Counterexample to claim C7 as stated: at the concrete entry `ex0`
the header the source composes differs from the spec's
position-em-dash-company, en-dash date form; the source uses ASCII
hyphens and wraps the position in bold markup. -/
theorem exp_header_format_claim_refuted : expHeader ex0 ≠ specExpHeader ex0 := by
  decide

/-- Claim C7 amended: for each experience entry the composed sequence
contains a `Normal`-styled header paragraph combining position, company,
and the date range in the form `<b>` position `</b> - ` company ` (`
start ` - ` end `)`: ASCII hyphen-minus separators and bold markup
around the position, not em and en dashes. -/
theorem exp_header_format_amended (cv : CVData) (e : ExperienceEntry)
    (he : e ∈ cv.experience) :
    LayoutBlock.para ("<b>" ++ e.position ++ "</b> - " ++ e.company ++ " ("
        ++ e.startDate ++ " - " ++ e.endDate ++ ")") .normal ∈ storyBlocks cv
    ∧ expHeader e = "<b>" ++ e.position ++ "</b> - " ++ e.company ++ " ("
        ++ e.startDate ++ " - " ++ e.endDate ++ ")" := by
  refine ⟨?_, rfl⟩
  rw [storyBlocks]
  refine List.mem_append.mpr (.inl (List.mem_append.mpr (.inr ?_)))
  refine List.mem_flatMap.mpr ⟨e, he, ?_⟩
  show LayoutBlock.para (expHeader e) .normal ∈ expBlocks e
  exact List.mem_cons_self _ _

/-- Witness for the amended C7 at the concrete record `cv0`. -/
theorem exp_header_format_amended_witness :
    ex0 ∈ cv0.experience
    ∧ (LayoutBlock.para ("<b>" ++ ex0.position ++ "</b> - " ++ ex0.company ++ " ("
          ++ ex0.startDate ++ " - " ++ ex0.endDate ++ ")") .normal ∈ storyBlocks cv0
      ∧ expHeader ex0 = "<b>" ++ ex0.position ++ "</b> - " ++ ex0.company ++ " ("
          ++ ex0.startDate ++ " - " ++ ex0.endDate ++ ")") :=
  ⟨List.mem_cons_self _ _,
    exp_header_format_amended cv0 ex0 (List.mem_cons_self _ _)⟩

/-! ## Claim C8 (corrected) -/

/-- Counterexample to claim C8 as stated: at the concrete personal info
of `cv0` the contact paragraph the source composes is not the four
fields joined with a vertical separator; only email and phone are joined
that way, address and linkedin follow after `<br/>` line breaks, and the
triple-quoted f-string's newlines and indentation are part of the
text. -/
theorem contact_line_claim_refuted :
    contactText cv0.personal ≠ specContactLine cv0.personal := by
  decide

/-- Claim C8 amended: the composed sequence carries, directly after the
title, a single paragraph styled `ContactInfo` combining all four
contact fields, with email and phone joined by a vertical separator and
address and linkedin on following `<br/>`-separated lines, surrounded by
the f-string's whitespace. -/
theorem contact_line_amended (cv : CVData) :
    (storyBlocks cv)[1]? = some (.para (contactText cv.personal) .contactInfo)
    ∧ contactText cv.personal
        = "\n        " ++ cv.personal.email ++ " | " ++ cv.personal.phone
          ++ "<br/>\n        " ++ cv.personal.address ++ "<br/>\n        "
          ++ cv.personal.linkedin ++ "\n        " :=
  ⟨rfl, rfl⟩

/-! ## Claim C9 (corrected) -/

/-- Counterexample to claim C9 as stated: the display name containing a
slash and a tab passes through sanitisation unchanged — the slash, a
character illegal in filenames, is not stripped and the tab, whitespace,
is not replaced — whereas the spec's sanitisation would produce a
different, safe string; the resulting filename still contains the
slash. -/
theorem sanitize_claim_refuted :
    sanitizeName "a/b\t" = "a/b\t"
    ∧ specSanitize "a/b\t" = "ab_"
    ∧ sanitizeName "a/b\t" ≠ specSanitize "a/b\t"
    ∧ '/' ∈ (singleFilename "a/b\t" "20240601_120000").data := by
  decide

/-- Claim C9 amended: filenames have the form `CV_` name `_` timestamp
(`_` index for batch entries) `.pdf`, where sanitisation replaces space
characters with underscores and removes commas — so the sanitised name
contains no space and no comma — but other whitespace and other
characters illegal in filenames pass through unchanged. -/
theorem sanitize_amended (name ts : String) (i : Nat) :
    singleFilename name ts = "CV_" ++ sanitizeName name ++ "_" ++ ts ++ ".pdf"
    ∧ zipEntryName name ts i
        = "CV_" ++ sanitizeName name ++ "_" ++ ts ++ "_" ++ pad3 i ++ ".pdf"
    ∧ (sanitizeName name).data
        = ((name.data.map fun c => if c = ' ' then '_' else c).filter fun c => c ≠ ',')
    ∧ ∀ c ∈ (sanitizeName name).data, c ≠ ' ' ∧ c ≠ ',' := by
  refine ⟨rfl, rfl, rfl, ?_⟩
  intro c hc
  have hc2 : c ∈ ((name.data.map fun c => if c = ' ' then '_' else c).filter
      fun c => c ≠ ',') := hc
  obtain ⟨hm, hne⟩ := List.mem_filter.mp hc2
  refine ⟨?_, by simpa using hne⟩
  obtain ⟨c2, _, rfl⟩ := List.mem_map.mp hm
  by_cases h : c2 = ' '
  · subst h
    simp
  · rw [if_neg h]
    exact h

/-- Witness for the amended C9 at a concrete name with a space. -/
theorem sanitize_amended_witness :
    singleFilename "John Doe" "20240601_120000"
        = "CV_" ++ sanitizeName "John Doe" ++ "_" ++ "20240601_120000" ++ ".pdf"
    ∧ zipEntryName "John Doe" "20240601_120000" 1
        = "CV_" ++ sanitizeName "John Doe" ++ "_" ++ "20240601_120000" ++ "_"
          ++ pad3 1 ++ ".pdf"
    ∧ (sanitizeName "John Doe").data
        = ((("John Doe").data.map fun c => if c = ' ' then '_' else c).filter
            fun c => c ≠ ',')
    ∧ ∀ c ∈ (sanitizeName "John Doe").data, c ≠ ' ' ∧ c ≠ ',' :=
  sanitize_amended "John Doe" "20240601_120000" 1

end CVGen
